import Mathlib

/-!
Verification development for the KAI JourneySense dashboard (src/app.py).

The pipeline under study: a synthetic record generator (make_dummy_data), a
validator/cleaner (validate_and_clean), a conjunctive row filter (filtered),
KPI aggregation over the filtered table, and static tourism lookup tables
(KAI_TOURISM_RECS / build_kai_star_table).

Tables are shallowly embedded: a pandas DataFrame becomes a list of rows with
an explicit column-name list; cells are numbers, strings, or null (NaN).
pandas column operations used by the code are modelled per row:
to_numeric(errors="coerce") as parseNum, to_datetime(errors="coerce") as a
best-effort ISO calendar-date parse, astype(str) as cellToStr (NaN prints as
"nan"), str.strip as String.trim, clip(1,5) as clip15.
-/

/-- A cell of an input table: a number, a string, or a missing value (NaN). -/
inductive Cell where
  | num (q : ℚ)
  | str (s : String)
  | null
deriving DecidableEq, Repr

/-- A calendar date (year, month, day), compared lexicographically like
Python datetime.date. -/
structure Date where
  year : Nat
  month : Nat
  day : Nat
deriving DecidableEq, Repr

/-- Boolean lexicographic order on dates, as Python date comparison. -/
def Date.ble (a b : Date) : Bool :=
  Nat.blt a.year b.year ||
    (a.year == b.year &&
      (Nat.blt a.month b.month ||
        (a.month == b.month && Nat.ble a.day b.day)))

/-- Leap-year rule of the Gregorian calendar. -/
def isLeap (y : Nat) : Bool :=
  (y % 4 == 0 && y % 100 != 0) || (y % 400 == 0)

/-- Number of days in a month, used by the date parser to reject
impossible dates such as Feb 30. -/
def daysInMonth (y m : Nat) : Nat :=
  if m == 2 then (if isLeap y then 29 else 28)
  else if m == 4 || m == 6 || m == 9 || m == 11 then 30
  else 31

/-- Split a character list at every occurrence of a separator character
(the counterpart of String.splitOn for a one-character separator, stated on
the character list of the string). -/
def splitOnChar (sep : Char) : List Char → List (List Char)
  | [] => [[]]
  | c :: cs =>
    let r := splitOnChar sep cs
    if c = sep then [] :: r
    else
      match r with
      | [] => [[c]]
      | h :: t => (c :: h) :: t

def charsToNatAux (acc : Nat) : List Char → Option Nat
  | [] => some acc
  | c :: cs =>
    if c.isDigit then charsToNatAux (acc * 10 + (c.toNat - 48)) cs else none

/-- Read a nonempty all-digit character list as a natural number. -/
def charsToNat (l : List Char) : Option Nat :=
  if l.isEmpty then none else charsToNatAux 0 l

/-- Remove leading and trailing whitespace, as str.strip does. -/
def trimChars (l : List Char) : List Char :=
  ((l.dropWhile Char.isWhitespace).reverse.dropWhile Char.isWhitespace).reverse

/-- str.strip on a string. -/
def strTrim (s : String) : String := ⟨trimChars s.data⟩

/-- Best-effort calendar-date parsing of an ISO "YYYY-MM-DD" string,
modelling pd.to_datetime(..., errors="coerce") on this data: a malformed or
impossible date yields none (NaT). -/
def parseIsoDate (s : String) : Option Date :=
  match splitOnChar '-' s.data with
  | [ys, ms, ds] =>
    match charsToNat ys, charsToNat ms, charsToNat ds with
    | some y, some m, some d =>
      if 1 ≤ m && m ≤ 12 && 1 ≤ d && d ≤ daysInMonth y m then
        some ⟨y, m, d⟩
      else none
    | _, _, _ => none
  | _ => none

/-- Date parsing of a cell: only date strings parse; a missing value is NaT. -/
def parseDate (c : Cell) : Option Date :=
  match c with
  | .str s => parseIsoDate s
  | _ => none

/-- Unsigned decimal numeral with optional fractional part, on the
character list of the string. -/
def parseUnsignedChars (l : List Char) : Option ℚ :=
  match splitOnChar '.' l with
  | [i] => (charsToNat i).map (fun n => (n : ℚ))
  | [i, f] =>
    if i.isEmpty && f.isEmpty then none
    else
      match (if i.isEmpty then some 0 else charsToNat i),
            (if f.isEmpty then some 0 else charsToNat f) with
      | some a, some b =>
        some ((a : ℚ) + (b : ℚ) / ((10 : ℚ) ^ f.length))
      | _, _ => none
  | _ => none

/-- Decimal-string parsing, modelling pd.to_numeric(..., errors="coerce") on
a string cell: surrounding whitespace ignored, optional sign, digits,
optional fractional part; anything else is missing (NaN). -/
def parseRatString (s : String) : Option ℚ :=
  match trimChars s.data with
  | '-' :: rest => (parseUnsignedChars rest).map (fun q => -q)
  | '+' :: rest => parseUnsignedChars rest
  | l => parseUnsignedChars l

/-- Numeric coercion of a cell: numbers pass through, strings are parsed,
a missing value stays missing. -/
def parseNum (c : Cell) : Option ℚ :=
  match c with
  | .num q => some q
  | .str s => parseRatString s
  | .null => none

/-- astype(str) on a cell: a missing value (NaN) prints as the literal
string "nan". The exact rendering of a numeric cell is not relied upon. -/
def cellToStr (c : Cell) : String :=
  match c with
  | .num q => toString q
  | .str s => s
  | .null => "nan"

/-- clip(1, 5) on a satisfaction value. -/
def clip15 (q : ℚ) : ℚ := min 5 (max 1 q)

/-- The ten required columns of the survey schema. -/
def EXPECTED_COLS : List String :=
  ["date", "country", "language", "route", "purpose",
   "ticket_class", "touchpoint", "satisfaction",
   "positive_feedback", "pain_point"]

/-- A raw input row: one cell per required column (extra columns of an
upload are ignored by the pipeline and not modelled). -/
structure RawRow where
  date : Cell
  country : Cell
  language : Cell
  route : Cell
  purpose : Cell
  ticket_class : Cell
  touchpoint : Cell
  satisfaction : Cell
  positive_feedback : Cell
  pain_point : Cell
deriving DecidableEq, Repr

/-- A raw input table: its header (column names) and its rows. -/
structure RawTable where
  cols : List String
  rows : List RawRow
deriving DecidableEq, Repr

/-- A cleaned survey row: all text fields trimmed strings, satisfaction a
number in [1,5], date successfully parsed. -/
structure CleanRow where
  date : Date
  country : String
  language : String
  route : String
  purpose : String
  ticket_class : String
  touchpoint : String
  satisfaction : ℚ
  positive_feedback : String
  pain_point : String
deriving DecidableEq, Repr

/-- A validated table. -/
structure CleanTable where
  rows : List CleanRow
deriving DecidableEq, Repr

/-- Row-wise effect of the cleaning steps of validate_and_clean: coerce
satisfaction to numeric and drop the row if missing, clip to [1,5], trim all
text fields after string conversion, parse the date and drop the row if it
does not parse. -/
def cleanRow (r : RawRow) : Option CleanRow :=
  match parseNum r.satisfaction with
  | none => none
  | some q =>
    match parseDate r.date with
    | none => none
    | some d =>
      some
        { date := d
          country := strTrim (cellToStr r.country)
          language := strTrim (cellToStr r.language)
          route := strTrim (cellToStr r.route)
          purpose := strTrim (cellToStr r.purpose)
          ticket_class := strTrim (cellToStr r.ticket_class)
          touchpoint := strTrim (cellToStr r.touchpoint)
          satisfaction := clip15 q
          positive_feedback := strTrim (cellToStr r.positive_feedback)
          pain_point := strTrim (cellToStr r.pain_point) }

/-- validate_and_clean: fail with the list of absent required columns when
any is missing, otherwise clean row by row, dropping rows whose satisfaction
is non-numeric or whose date does not parse. -/
def validate_and_clean (df : RawTable) : Except (List String) CleanTable :=
  let missing := EXPECTED_COLS.filter (fun c => !(df.cols.contains c))
  if missing.isEmpty then
    .ok ⟨df.rows.filterMap cleanRow⟩
  else
    .error missing

/-- A filter specification from the sidebar: accepted-value lists for the
four categorical dimensions and an inclusive date range. -/
structure FilterSpec where
  countries : List String
  routes : List String
  classes : List String
  purposes : List String
  start_date : Date
  end_date : Date
deriving DecidableEq, Repr

/-- The conjunctive row predicate of the filter expression: the four
isin membership tests and the two date-range comparisons. -/
def rowMatches (f : FilterSpec) (r : CleanRow) : Bool :=
  f.countries.contains r.country &&
  f.routes.contains r.route &&
  f.classes.contains r.ticket_class &&
  f.purposes.contains r.purpose &&
  Date.ble f.start_date r.date &&
  Date.ble r.date f.end_date

/-- filtered: the subset of rows satisfying all six conditions. -/
def filtered (f : FilterSpec) (t : CleanTable) : CleanTable :=
  ⟨t.rows.filter (rowMatches f)⟩

/-- Row count of a table (len(filtered)). -/
def total (t : CleanTable) : Nat := t.rows.length

/-- Mean satisfaction, with the explicit 0.0 default on an empty table. -/
def avg_sat (t : CleanTable) : ℚ :=
  if total t ≠ 0 then
    ((t.rows.map (fun r => r.satisfaction)).sum) / (total t : ℚ)
  else 0

/-- value_counts().index[0]: a most frequent value of a list. The upstream
tie-break is implementation-dependent; the model picks the first listed
value attaining the maximal count, which is only consulted on nonempty
input (callers guard with the row count). -/
def modeFirst (l : List String) : String :=
  match l.find? (fun x => l.all (fun y => Nat.ble (l.count y) (l.count x))) with
  | some x => x
  | none => "-"

/-- Most frequent country, "-" on an empty table. -/
def top_country (t : CleanTable) : String :=
  if total t ≠ 0 then modeFirst (t.rows.map (fun r => r.country)) else "-"

/-- Most frequent route, "-" on an empty table. -/
def top_route (t : CleanTable) : String :=
  if total t ≠ 0 then modeFirst (t.rows.map (fun r => r.route)) else "-"

/-- Percentage of rows with satisfaction below 4.0, 0.0 on an empty table. -/
def low_sat_share (t : CleanTable) : ℚ :=
  if total t ≠ 0 then
    ((t.rows.filter (fun r => decide (r.satisfaction < 4))).length : ℚ)
      / (total t : ℚ) * 100
  else 0

/-- The fixed route → destination-city mapping. -/
def ROUTE_TO_DEST : List (String × String) :=
  [("Jakarta–Bandung", "Bandung"),
   ("Jakarta–Yogyakarta", "Yogyakarta"),
   ("Jakarta–Surabaya", "Surabaya"),
   ("Bandung–Yogyakarta", "Yogyakarta"),
   ("Yogyakarta–Surabaya", "Surabaya"),
   ("Surabaya–Malang", "Malang")]

/-- Fixed category lists of make_dummy_data. -/
def countries : List String :=
  ["Japan", "Australia", "Germany", "France", "Singapore", "Malaysia", "USA"]

def languages : List (String × String) :=
  [("Japan", "Japanese"), ("Australia", "English"), ("Germany", "German"),
   ("France", "French"), ("Singapore", "English"), ("Malaysia", "English"),
   ("USA", "English")]

def routes : List String := ROUTE_TO_DEST.map (fun p => p.1)

def purposes : List String := ["Leisure", "Business", "Family", "Backpacking"]

def classes : List String := ["Economy", "Executive", "Luxury/Pariwisata"]

def touchpoints : List String :=
  ["Website/App", "Station", "On-train", "Customer Service"]

def pains : List String :=
  ["Language barrier at station", "Wayfinding signage", "Ticketing confusion",
   "Payment limitations", "Schedule clarity"]

def positives : List String :=
  ["On-time departure", "Comfortable seating", "Easy booking", "Clean station",
   "Friendly staff", "Scenic route"]

/-- dict.get(key, default) on an association list. -/
def lookupD (l : List (String × String)) (k dflt : String) : String :=
  match l.find? (fun p => p.1 == k) with
  | some p => p.2
  | none => dflt

/-- Python round(x, 2): round to 2 decimal places, ties to even. -/
def round2 (q : ℚ) : ℚ :=
  let x := q * 100
  let f : ℤ := ⌊x⌋
  let r : ℚ := x - (f : ℚ)
  let n : ℤ :=
    if r < 1/2 then f
    else if 1/2 < r then f + 1
    else if f % 2 = 0 then f else f + 1
  (n : ℚ) / 100

/-- Zero-padded two-digit rendering of a month or day. -/
def pad2 (n : Nat) : String := if n < 10 then "0" ++ toString n else toString n

/-- datetime(2025, m, d).date().isoformat(). -/
def isoDate (m d : Nat) : String := "2025-" ++ pad2 m ++ "-" ++ pad2 d

/-- The random draws of one iteration in make_dummy_data: indices into the fixed
category lists, the month and day of the date (month.val+1 in 1..12, day.val+1 in
1..28, as randint(1,12) and randint(1,28)), and the Gaussian perturbation
around the class base mean (random.gauss(base, 0.35) = base + noise, noise
an arbitrary real modelled as a rational). -/
structure GenChoice where
  countryIdx : Fin 7
  routeIdx : Fin 6
  clsIdx : Fin 3
  purposeIdx : Fin 4
  touchIdx : Fin 4
  noise : ℚ
  month : Fin 12
  day : Fin 28
  posIdx : Fin 6
  painIdx : Fin 5
deriving DecidableEq, Repr

/-- One synthetic row of make_dummy_data for a given draw. -/
def genRow (ch : GenChoice) : RawRow :=
  let c := countries.getD ch.countryIdx.val ""
  let cls := classes.getD ch.clsIdx.val ""
  let base : ℚ :=
    if cls = "Economy" then 405/100
    else if cls = "Executive" then 435/100
    else 455/100
  { date := .str (isoDate (ch.month.val + 1) (ch.day.val + 1))
    country := .str c
    language := .str (lookupD languages c "English")
    route := .str (routes.getD ch.routeIdx.val "")
    purpose := .str (purposes.getD ch.purposeIdx.val "")
    ticket_class := .str cls
    touchpoint := .str (touchpoints.getD ch.touchIdx.val "")
    satisfaction := .num (round2 (max 1 (min 5 (base + ch.noise))))
    positive_feedback := .str (positives.getD ch.posIdx.val "")
    pain_point := .str (pains.getD ch.painIdx.val "") }

/-- make_dummy_data over a list of draws, one per requested row.
pd.DataFrame(rows) takes its columns from the row dicts, so a request of 0
rows yields a frame with no columns at all. -/
def make_dummy_data (cs : List GenChoice) : RawTable :=
  ⟨if cs.isEmpty then [] else EXPECTED_COLS, cs.map genRow⟩

/-- One entry of the static tourism-recommendation tables. -/
structure TourismRec where
  place : String
  kai_star : Nat
  category : String
  why : String
deriving DecidableEq, Repr

/-- KAI_STAR_SCALE: display string of a star rating (a key outside 1..3
would be missing from the dict; the table only holds 1..3). -/
def KAI_STAR_SCALE (n : Nat) : String :=
  if n = 3 then "★★★ KAI Star – Wajib Dikunjungi"
  else if n = 2 then "★★ KAI Star – Sangat Direkomendasikan"
  else if n = 1 then "★ KAI Star – Direkomendasikan"
  else ""

/-- The static city → recommendations table. -/
def KAI_TOURISM_RECS : List (String × List TourismRec) :=
  [("Bandung",
    [⟨"Kawah Putih Ciwidey", 3, "Nature",
      "Pengalaman alam unik dan sangat memorable."⟩,
     ⟨"Jalan Braga", 2, "Heritage",
      "Ikonik dan mudah dijangkau wisatawan."⟩,
     ⟨"Gedung Sate", 2, "Landmark",
      "Landmark kota dengan nilai sejarah."⟩]),
   ("Yogyakarta",
    [⟨"Candi Prambanan", 3, "UNESCO Heritage",
      "Destinasi kelas dunia dan bernilai budaya tinggi."⟩,
     ⟨"Keraton Yogyakarta", 3, "Culture",
      "Pengalaman budaya autentik."⟩,
     ⟨"Malioboro", 2, "City Experience",
      "Pusat aktivitas wisata kota."⟩]),
   ("Surabaya",
    [⟨"Tugu Pahlawan", 2, "History",
      "Ikon sejarah nasional."⟩,
     ⟨"Kota Tua (Kembang Jepun)", 2, "Heritage",
      "Area heritage yang mudah dijelajahi."⟩,
     ⟨"House of Sampoerna", 1, "Museum",
      "Museum populer untuk kunjungan singkat."⟩]),
   ("Malang",
    [⟨"Bromo (akses via Malang)", 3, "Nature",
      "Destinasi internasional dengan pengalaman ikonik."⟩,
     ⟨"Kampung Warna-Warni Jodipan", 2, "City Spot",
      "Spot visual yang menarik wisatawan."⟩,
     ⟨"Alun-Alun Malang", 1, "City Experience",
      "Ruang publik nyaman untuk wisata santai."⟩])]

/-- KAI_TOURISM_RECS.get(city, []). -/
def tourismRecsOf (city : String) : List TourismRec :=
  ((KAI_TOURISM_RECS.find? (fun p => p.1 == city)).map (fun p => p.2)).getD []

/-- Boolean strict lexicographic order on character lists, by code point,
as Python string comparison. -/
def charListLt : List Char → List Char → Bool
  | [], [] => false
  | [], _ :: _ => true
  | _ :: _, [] => false
  | a :: as, b :: bs => decide (a < b) || (a == b && charListLt as bs)

/-- Python string less-or-equal, by code point. -/
def strLe (a b : String) : Bool := !(charListLt b.data a.data)

def insertBy {α : Type} (le : α → α → Bool) (a : α) : List α → List α
  | [] => [a]
  | b :: bs => if le a b then a :: b :: bs else b :: insertBy le a bs

/-- Insertion sort by a boolean comparator. -/
def sortBy {α : Type} (le : α → α → Bool) : List α → List α
  | [] => []
  | a :: as => insertBy le a (sortBy le as)

/-- sort_values(["kai_star", "Tempat"], ascending=[False, True]): star
rating descending, place name ascending within equal ratings. -/
def recLE (a b : TourismRec) : Bool :=
  Nat.blt b.kai_star a.kai_star ||
    (a.kai_star == b.kai_star && strLe a.place b.place)

/-- A row of the displayed recommendation table after the kai_star sort
column is dropped: KAI Star, Tempat, Kategori, Alasan singkat. -/
structure StarRow where
  kaiStar : String
  tempat : String
  kategori : String
  alasan : String
deriving DecidableEq, Repr

/-- The display form of one recommendation entry. -/
def displayRec (r : TourismRec) : StarRow :=
  ⟨KAI_STAR_SCALE r.kai_star, r.place, r.category, r.why⟩

/-- build_kai_star_table: the entries of the city sorted by star descending then
place ascending, in display form (a missing city gives the empty table). -/
def build_kai_star_table (city : String) : List StarRow :=
  (sortBy recLE (tourismRecsOf city)).map displayRec

/-- The star count recovered from the display string, as the lambda
s.count("★") does. -/
def starCount (s : String) : Nat := s.data.countP (fun c => c == '★')

/-- The minimum-star restriction applied to the displayed table. -/
def restrictStars (m : Nat) (t : List StarRow) : List StarRow :=
  t.filter (fun r => Nat.ble m (starCount r.kaiStar))

/-- A sample raw row with every field present and parseable. -/
def goodRow : RawRow :=
  { date := .str "2025-06-15", country := .str " Japan ", language := .str "Japanese"
    route := .str "Jakarta–Bandung", purpose := .str "Leisure"
    ticket_class := .str "Economy", touchpoint := .str "Station"
    satisfaction := .str "7.5", positive_feedback := .str "Friendly staff"
    pain_point := .str "Schedule clarity" }

/-- A sample raw row whose satisfaction is non-numeric. -/
def badSatRow : RawRow := { goodRow with satisfaction := .str "great" }

/-- A sample raw row whose date does not parse. -/
def badDateRow : RawRow := { goodRow with date := .str "2025-02-30" }

/-- A sample upload with only two of the ten required columns. -/
def twoColTable : RawTable := ⟨["date", "country"], []⟩

/-- A sample upload with the full schema and a mix of good and bad rows. -/
def mixedTable : RawTable := ⟨EXPECTED_COLS, [goodRow, badSatRow, badDateRow]⟩

/-- A sample upload whose only row has a whitespace-only country. -/
def blankCountryTable : RawTable :=
  ⟨EXPECTED_COLS, [{ goodRow with country := .str "   ", satisfaction := .num 3 }]⟩

/-- A sample upload whose only row has a missing (NaN) country. -/
def nullCountryTable : RawTable :=
  ⟨EXPECTED_COLS, [{ goodRow with country := .null, satisfaction := .num 3 }]⟩

/-- The cleaned form of the single row of blankCountryTable. -/
def blankCleanRow : CleanRow :=
  { date := ⟨2025, 6, 15⟩, country := "", language := "Japanese"
    route := "Jakarta–Bandung", purpose := "Leisure", ticket_class := "Economy"
    touchpoint := "Station", satisfaction := 3
    positive_feedback := "Friendly staff", pain_point := "Schedule clarity" }

/-- A generator draw that picks the third ticket class. -/
def luxChoice : GenChoice :=
  { countryIdx := 0, routeIdx := 0, clsIdx := 2, purposeIdx := 0, touchIdx := 0
    noise := 4, month := 0, day := 0, posIdx := 0, painIdx := 0 }

/-- A generator draw that picks the first entry of every list. -/
def firstChoice : GenChoice :=
  { countryIdx := 0, routeIdx := 0, clsIdx := 0, purposeIdx := 0, touchIdx := 0
    noise := 0, month := 0, day := 0, posIdx := 0, painIdx := 0 }

/-- A sample nonempty filter specification. -/
def exSpec : FilterSpec :=
  { countries := ["Japan"], routes := ["Jakarta–Bandung"], classes := ["Economy"]
    purposes := ["Leisure"], start_date := ⟨2025, 1, 1⟩, end_date := ⟨2025, 12, 31⟩ }

/-- The sample specification with an emptied country set. -/
def emptyCountrySpec : FilterSpec := { exSpec with countries := [] }

/-- A one-row validated sample table. -/
def exClean : CleanTable :=
  ⟨[{ date := ⟨2025, 6, 15⟩, country := "Japan", language := "Japanese"
      route := "Jakarta–Bandung", purpose := "Leisure", ticket_class := "Economy"
      touchpoint := "Station", satisfaction := 5
      positive_feedback := "Friendly staff", pain_point := "Schedule clarity" }]⟩

/-- Adjacent-pair boolean sortedness check for a comparator. -/
def sortedByB {α : Type} (le : α → α → Bool) : List α → Bool
  | [] => true
  | [_] => true
  | a :: b :: t => le a b && sortedByB le (b :: t)

/-- The documented display order of the recommendation table: star count
descending, place name ascending within equal star counts. -/
def starRowOrd (a b : StarRow) : Bool :=
  Nat.blt (starCount b.kaiStar) (starCount a.kaiStar) ||
    (starCount a.kaiStar == starCount b.kaiStar && strLe a.tempat b.tempat)

lemma cleanRow_eq_none_iff (rr : RawRow) :
    cleanRow rr = none ↔
      (parseNum rr.satisfaction = none ∨ parseDate rr.date = none) := by
  unfold cleanRow
  cases parseNum rr.satisfaction <;> cases parseDate rr.date <;> simp

lemma cleanRow_some_spec (rr : RawRow) (r : CleanRow) (h : cleanRow rr = some r) :
    ∃ q d, parseNum rr.satisfaction = some q ∧ parseDate rr.date = some d ∧
      r.satisfaction = clip15 q ∧ r.date = d ∧
      r.country = strTrim (cellToStr rr.country) ∧
      r.language = strTrim (cellToStr rr.language) ∧
      r.route = strTrim (cellToStr rr.route) ∧
      r.purpose = strTrim (cellToStr rr.purpose) ∧
      r.ticket_class = strTrim (cellToStr rr.ticket_class) ∧
      r.touchpoint = strTrim (cellToStr rr.touchpoint) ∧
      r.positive_feedback = strTrim (cellToStr rr.positive_feedback) ∧
      r.pain_point = strTrim (cellToStr rr.pain_point) := by
  unfold cleanRow at h
  cases hq : parseNum rr.satisfaction with
  | none => rw [hq] at h; simp at h
  | some q =>
    rw [hq] at h
    cases hd : parseDate rr.date with
    | none => rw [hd] at h; simp at h
    | some d =>
      rw [hd] at h
      refine ⟨q, d, rfl, rfl, ?_⟩
      simp only [Option.some.injEq] at h
      subst h
      simp

lemma validate_eq (df : RawTable) :
    validate_and_clean df =
      if (EXPECTED_COLS.filter (fun c => !(df.cols.contains c))).isEmpty
      then .ok ⟨df.rows.filterMap cleanRow⟩
      else .error (EXPECTED_COLS.filter (fun c => !(df.cols.contains c))) := rfl

lemma validate_ok_of_cols (df : RawTable) (h : ∀ c ∈ EXPECTED_COLS, c ∈ df.cols) :
    validate_and_clean df = .ok ⟨df.rows.filterMap cleanRow⟩ := by
  rw [validate_eq]
  have hfil : EXPECTED_COLS.filter (fun c => !(df.cols.contains c)) = [] := by
    rw [List.filter_eq_nil_iff]
    intro c hc
    simp [h c hc]
  rw [hfil]
  rfl

lemma validate_ok_rows (df : RawTable) (t : CleanTable)
    (h : validate_and_clean df = .ok t) :
    t.rows = df.rows.filterMap cleanRow := by
  rw [validate_eq] at h
  split at h
  · cases h; rfl
  · cases h

lemma clip15_bounds (q : ℚ) : 1 ≤ clip15 q ∧ clip15 q ≤ 5 := by
  unfold clip15
  constructor
  · exact le_min (by norm_num) (le_max_left 1 q)
  · exact min_le_left 5 (max 1 q)

lemma mem_missing_filter (df : RawTable) (c0 : String)
    (h1 : c0 ∈ EXPECTED_COLS) (h2 : c0 ∉ df.cols) :
    c0 ∈ EXPECTED_COLS.filter (fun c => !(df.cols.contains c)) := by
  rw [List.mem_filter]
  exact ⟨h1, by simp [h2]⟩

/-- C1: whenever at least one of the ten required columns is absent from the
input table, validate_and_clean fails with an error listing exactly the
absent required columns (a nonempty list), and produces no cleaned table. -/
theorem C1_missing_columns_error (df : RawTable) (c0 : String)
    (h1 : c0 ∈ EXPECTED_COLS) (h2 : c0 ∉ df.cols) :
    ∃ missing, validate_and_clean df = .error missing ∧ missing ≠ [] ∧
      (∀ t, validate_and_clean df ≠ .ok t) ∧
      (∀ c, c ∈ missing ↔ (c ∈ EXPECTED_COLS ∧ c ∉ df.cols)) := by
  have hmem := mem_missing_filter df c0 h1 h2
  have herr : validate_and_clean df =
      .error (EXPECTED_COLS.filter (fun c => !(df.cols.contains c))) := by
    rw [validate_eq]
    have : ¬ (EXPECTED_COLS.filter (fun c => !(df.cols.contains c))).isEmpty = true := by
      intro hemp
      rw [List.isEmpty_iff] at hemp
      rw [hemp] at hmem
      cases hmem
    rw [if_neg this]
  refine ⟨_, herr, ?_, ?_, ?_⟩
  · intro hnil
    rw [hnil] at hmem
    cases hmem
  · intro t hok
    rw [herr] at hok
    cases hok
  · intro c
    rw [List.mem_filter]
    simp

/-- C1 witness: a two-column upload is rejected with the eight absent
required column names. -/
theorem C1_missing_columns_error_witness :
    ∃ missing, validate_and_clean twoColTable = .error missing ∧ missing ≠ [] ∧
      (∀ t, validate_and_clean twoColTable ≠ .ok t) ∧
      (∀ c, c ∈ missing ↔ (c ∈ EXPECTED_COLS ∧ c ∉ twoColTable.cols)) :=
  C1_missing_columns_error twoColTable "language" (by decide) (by decide)

/-- C2: on a full-schema input, validation succeeds; every returned row has
satisfaction in [1,5] and a date that parsed successfully from its source
row, and any source row with non-numeric satisfaction or unparseable date is
dropped (cleans to none) rather than kept or raised on. -/
theorem C2_validated_row_invariants (df : RawTable)
    (h : ∀ c ∈ EXPECTED_COLS, c ∈ df.cols) :
    ∃ t, validate_and_clean df = .ok t ∧
      (∀ r ∈ t.rows, 1 ≤ r.satisfaction ∧ r.satisfaction ≤ 5 ∧
        ∃ rr ∈ df.rows, cleanRow rr = some r ∧ parseDate rr.date = some r.date) ∧
      (∀ rr ∈ df.rows,
        (parseNum rr.satisfaction = none ∨ parseDate rr.date = none) →
          cleanRow rr = none) := by
  refine ⟨⟨df.rows.filterMap cleanRow⟩, validate_ok_of_cols df h, ?_, ?_⟩
  · intro r hr
    obtain ⟨rr, hrr, hcl⟩ := List.mem_filterMap.mp hr
    obtain ⟨q, d, hq, hd, hsat, hdate, hrest⟩ := cleanRow_some_spec rr r hcl
    refine ⟨hsat ▸ (clip15_bounds q).1, hsat ▸ (clip15_bounds q).2, rr, hrr, hcl, ?_⟩
    rw [hdate]
    exact hd
  · intro rr hrr hor
    exact (cleanRow_eq_none_iff rr).mpr hor

/-- C2 witness: the mixed sample table validates, with the invariants
holding on its cleaned rows. -/
theorem C2_validated_row_invariants_witness :
    ∃ t, validate_and_clean mixedTable = .ok t ∧
      (∀ r ∈ t.rows, 1 ≤ r.satisfaction ∧ r.satisfaction ≤ 5 ∧
        ∃ rr ∈ mixedTable.rows, cleanRow rr = some r ∧
          parseDate rr.date = some r.date) ∧
      (∀ rr ∈ mixedTable.rows,
        (parseNum rr.satisfaction = none ∨ parseDate rr.date = none) →
          cleanRow rr = none) :=
  C2_validated_row_invariants mixedTable (by decide)

/-- C3: the filter step returns exactly the rows of the validated table
whose four categorical fields belong to the corresponding accepted sets and
whose date lies in the inclusive range; an empty accepted set for any
dimension gives an empty result. -/
theorem C3_filter_exact (f : FilterSpec) (t : CleanTable) :
    (∀ r, r ∈ (filtered f t).rows ↔
      (r ∈ t.rows ∧ r.country ∈ f.countries ∧ r.route ∈ f.routes ∧
       r.ticket_class ∈ f.classes ∧ r.purpose ∈ f.purposes ∧
       Date.ble f.start_date r.date = true ∧
       Date.ble r.date f.end_date = true)) ∧
    ((f.countries = [] ∨ f.routes = [] ∨ f.classes = [] ∨ f.purposes = []) →
      (filtered f t).rows = []) := by
  have hmem : ∀ r, r ∈ (filtered f t).rows ↔
      (r ∈ t.rows ∧ r.country ∈ f.countries ∧ r.route ∈ f.routes ∧
       r.ticket_class ∈ f.classes ∧ r.purpose ∈ f.purposes ∧
       Date.ble f.start_date r.date = true ∧
       Date.ble r.date f.end_date = true) := by
    intro r
    simp [filtered, rowMatches, List.mem_filter, and_assoc]
  refine ⟨hmem, ?_⟩
  intro hempty
  rw [List.eq_nil_iff_forall_not_mem]
  intro r hr
  obtain ⟨_, hc, hrt, hcl, hp, _, _⟩ := (hmem r).mp hr
  rcases hempty with he | he | he | he
  · rw [he] at hc; cases hc
  · rw [he] at hrt; cases hrt
  · rw [he] at hcl; cases hcl
  · rw [he] at hp; cases hp

/-- C3 witness: with the country set emptied, the sample filter returns no
rows from the sample table. -/
theorem C3_filter_exact_witness :
    (filtered emptyCountrySpec exClean).rows = [] :=
  (C3_filter_exact emptyCountrySpec exClean).2 (Or.inl rfl)

/-- C8: filtering an already-filtered table again with the same
specification returns the identical table. -/
theorem C8_filter_idempotent (f : FilterSpec) (t : CleanTable) :
    filtered f (filtered f t) = filtered f t := by
  simp [filtered, List.filter_filter]

/-- C6: on an empty filtered table the KPI layer yields 0 mean satisfaction,
0 below-threshold share, and the "-" placeholder for the most frequent
country and route; all four are total computations. -/
theorem C6_empty_kpis (t : CleanTable) (h : total t = 0) :
    avg_sat t = 0 ∧ low_sat_share t = 0 ∧
      top_country t = "-" ∧ top_route t = "-" := by
  refine ⟨?_, ?_, ?_, ?_⟩ <;> simp [avg_sat, low_sat_share, top_country, top_route, h]

/-- C6 witness: the KPI defaults on the concrete empty table. -/
theorem C6_empty_kpis_witness :
    avg_sat ⟨[]⟩ = 0 ∧ low_sat_share ⟨[]⟩ = 0 ∧
      top_country ⟨[]⟩ = "-" ∧ top_route ⟨[]⟩ = "-" :=
  C6_empty_kpis ⟨[]⟩ rfl

/-- C4 counterexample: a generator draw that picks the third ticket class
produces the value "Luxury/Pariwisata", which is not in
{Economy, Executive, Luxury} as the claim states. -/
theorem C4_counterexample :
    (genRow luxChoice).ticket_class ∉
      [Cell.str "Economy", Cell.str "Executive", Cell.str "Luxury"] := by
  decide

/-- C4 (amended): the ticket_class of every generated row is one of
{Economy, Executive, Luxury/Pariwisata}, the literal fixed set of the
generator. -/
theorem C4_ticket_class_fixed_set (ch : GenChoice) :
    (genRow ch).ticket_class ∈
      [Cell.str "Economy", Cell.str "Executive", Cell.str "Luxury/Pariwisata"] := by
  have htc : (genRow ch).ticket_class =
      Cell.str (classes.getD ch.clsIdx.val "") := rfl
  rw [htc]
  have hv : ch.clsIdx.val < 3 := ch.clsIdx.isLt
  revert hv
  generalize ch.clsIdx.val = v
  intro hv
  interval_cases v <;> decide

/-- C5 counterexample: an upload whose only row has a whitespace-only
country validates successfully and keeps that row with an empty country,
so cleaning can leave a row whose country is empty. -/
theorem C5_counterexample :
    ∃ t, validate_and_clean blankCountryTable = Except.ok t ∧
      t.rows.length = 1 ∧ ∀ r ∈ t.rows, r.country = "" := by
  refine ⟨⟨blankCountryTable.rows.filterMap cleanRow⟩, rfl, by decide, by decide⟩

/-- C5 (amended): every row of a validated table has as its country the
trimmed string conversion of the country cell of the source row — trimmed, but
possibly empty. -/
theorem C5_country_trimmed (df : RawTable) (t : CleanTable)
    (h : validate_and_clean df = .ok t) :
    ∀ r ∈ t.rows, ∃ rr ∈ df.rows,
      cleanRow rr = some r ∧ r.country = strTrim (cellToStr rr.country) := by
  intro r hr
  rw [validate_ok_rows df t h] at hr
  obtain ⟨rr, hrr, hcl⟩ := List.mem_filterMap.mp hr
  obtain ⟨q, d, hq, hd, hsat, hdate, hc, hrest⟩ := cleanRow_some_spec rr r hcl
  exact ⟨rr, hrr, hcl, hc⟩

/-- C5 witness: the amended statement at the whitespace-country sample and
its concrete cleaned row. -/
theorem C5_country_trimmed_witness :
    ∃ rr ∈ blankCountryTable.rows,
      cleanRow rr = some blankCleanRow ∧
        blankCleanRow.country = strTrim (cellToStr rr.country) :=
  C5_country_trimmed blankCountryTable ⟨[blankCleanRow]⟩ rfl
    blankCleanRow (by decide)

lemma parse_isoDate_gen :
    ∀ (m : Fin 12) (d : Fin 28),
      parseIsoDate (isoDate (m.val + 1) (d.val + 1)) =
        some ⟨2025, m.val + 1, d.val + 1⟩ := by
  decide

lemma cleanRow_genRow_isSome (ch : GenChoice) :
    (cleanRow (genRow ch)).isSome := by
  obtain ⟨v, hv⟩ : ∃ v, parseNum (genRow ch).satisfaction = some v := ⟨_, rfl⟩
  have hd : parseDate (genRow ch).date =
      some ⟨2025, ch.month.val + 1, ch.day.val + 1⟩ :=
    parse_isoDate_gen ch.month ch.day
  simp [cleanRow, hv, hd]

lemma length_filterMap_of_isSome {α β : Type} (f : α → Option β) (l : List α)
    (h : ∀ x ∈ l, (f x).isSome) : (l.filterMap f).length = l.length := by
  induction l with
  | nil => rfl
  | cons a as ih =>
    obtain ⟨b, hb⟩ := Option.isSome_iff_exists.mp (h a (List.mem_cons_self a as))
    rw [List.filterMap_cons, hb]
    simp [ih (fun x hx => h x (List.mem_cons_of_mem a hx))]

/-- C7: for a nonempty list of generator draws, validating the generated
table succeeds and keeps exactly one row per draw — the generator never
produces a row that validation drops. -/
theorem C7_generator_rows_survive (cs : List GenChoice) (h : cs ≠ []) :
    ∃ t, validate_and_clean (make_dummy_data cs) = .ok t ∧
      t.rows.length = cs.length := by
  have hcols : (make_dummy_data cs).cols = EXPECTED_COLS := by
    simp [make_dummy_data, h]
  have hok : validate_and_clean (make_dummy_data cs) =
      .ok ⟨(make_dummy_data cs).rows.filterMap cleanRow⟩ := by
    apply validate_ok_of_cols
    intro c hc
    rw [hcols]
    exact hc
  refine ⟨_, hok, ?_⟩
  show ((make_dummy_data cs).rows.filterMap cleanRow).length = cs.length
  have hrows : (make_dummy_data cs).rows = cs.map genRow := rfl
  rw [hrows, length_filterMap_of_isSome]
  · exact List.length_map _ _
  · intro x hx
    obtain ⟨ch, _, rfl⟩ := List.mem_map.mp hx
    exact cleanRow_genRow_isSome ch

/-- C7 witness: a one-draw generation validates to a one-row table. -/
theorem C7_generator_rows_survive_witness :
    ∃ t, validate_and_clean (make_dummy_data [firstChoice]) = .ok t ∧
      t.rows.length = [firstChoice].length :=
  C7_generator_rows_survive [firstChoice] (by simp)

/-- C9: for every city of the tourism table and every minimum star m in
{1,2,3}, restricting the built recommendation table to entries displaying at
least m stars yields exactly the entries of the city with original kai_star at
least m, ordered by star rating descending and place name ascending within
equal ratings (the table order is the sorted order of that subset, and the
result is pairwise sorted for the documented display order). -/
theorem C9_star_restriction (city : String)
    (hcity : city ∈ KAI_TOURISM_RECS.map (fun p => p.1))
    (m : Nat) (hm : m ∈ [1, 2, 3]) :
    restrictStars m (build_kai_star_table city) =
      (sortBy recLE ((tourismRecsOf city).filter
        (fun r => Nat.ble m r.kai_star))).map displayRec ∧
    sortedByB starRowOrd (restrictStars m (build_kai_star_table city)) = true := by
  fin_cases hcity <;> fin_cases hm <;> decide

/-- C9 witness: Bandung at minimum star 3 keeps exactly the 3-star entry in
sorted display order. -/
theorem C9_star_restriction_witness :
    restrictStars 3 (build_kai_star_table "Bandung") =
      (sortBy recLE ((tourismRecsOf "Bandung").filter
        (fun r => Nat.ble 3 r.kai_star))).map displayRec ∧
    sortedByB starRowOrd (restrictStars 3 (build_kai_star_table "Bandung")) = true :=
  C9_star_restriction "Bandung" (by decide) 3 (by decide)

/-- C10: on a full-schema input, validation succeeds; a row is dropped
exactly when its satisfaction is non-numeric or its date unparseable, and a
kept row whose text cell was missing (NaN) carries the literal string "nan"
in that field. -/
theorem C10_null_text_becomes_nan (df : RawTable)
    (h : ∀ c ∈ EXPECTED_COLS, c ∈ df.cols) :
    ∃ t, validate_and_clean df = .ok t ∧
      (∀ rr ∈ df.rows,
        (cleanRow rr = none ↔
          (parseNum rr.satisfaction = none ∨ parseDate rr.date = none))) ∧
      (∀ rr ∈ df.rows, ∀ r, cleanRow rr = some r →
        ((rr.country = Cell.null → r.country = "nan") ∧
         (rr.language = Cell.null → r.language = "nan") ∧
         (rr.route = Cell.null → r.route = "nan") ∧
         (rr.purpose = Cell.null → r.purpose = "nan") ∧
         (rr.ticket_class = Cell.null → r.ticket_class = "nan") ∧
         (rr.touchpoint = Cell.null → r.touchpoint = "nan") ∧
         (rr.positive_feedback = Cell.null → r.positive_feedback = "nan") ∧
         (rr.pain_point = Cell.null → r.pain_point = "nan"))) := by
  refine ⟨_, validate_ok_of_cols df h, ?_, ?_⟩
  · intro rr _
    exact cleanRow_eq_none_iff rr
  · intro rr _ r hcl
    obtain ⟨q, d, hq, hd, hsat, hdate, hc, hl, hrt, hp, htc, hto, hpf, hpp⟩ :=
      cleanRow_some_spec rr r hcl
    refine ⟨?_, ?_, ?_, ?_, ?_, ?_, ?_, ?_⟩
    · intro hnull; rw [hc, hnull]; decide
    · intro hnull; rw [hl, hnull]; decide
    · intro hnull; rw [hrt, hnull]; decide
    · intro hnull; rw [hp, hnull]; decide
    · intro hnull; rw [htc, hnull]; decide
    · intro hnull; rw [hto, hnull]; decide
    · intro hnull; rw [hpf, hnull]; decide
    · intro hnull; rw [hpp, hnull]; decide

/-- C10 witness: the sample with a missing (NaN) country validates and the
stated retention and "nan"-literal properties hold on it. -/
theorem C10_null_text_becomes_nan_witness :
    ∃ t, validate_and_clean nullCountryTable = .ok t ∧
      (∀ rr ∈ nullCountryTable.rows,
        (cleanRow rr = none ↔
          (parseNum rr.satisfaction = none ∨ parseDate rr.date = none))) ∧
      (∀ rr ∈ nullCountryTable.rows, ∀ r, cleanRow rr = some r →
        ((rr.country = Cell.null → r.country = "nan") ∧
         (rr.language = Cell.null → r.language = "nan") ∧
         (rr.route = Cell.null → r.route = "nan") ∧
         (rr.purpose = Cell.null → r.purpose = "nan") ∧
         (rr.ticket_class = Cell.null → r.ticket_class = "nan") ∧
         (rr.touchpoint = Cell.null → r.touchpoint = "nan") ∧
         (rr.positive_feedback = Cell.null → r.positive_feedback = "nan") ∧
         (rr.pain_point = Cell.null → r.pain_point = "nan"))) :=
  C10_null_text_becomes_nan nullCountryTable (by decide)
